import Mathlib

/-!
# Verification of the flickr-exporter concurrent export pipeline

Shallow embedding of the export pipeline from `exporter.go`: string
sanitization, filename derivation, pagination draining, the 429-aware
download retry, the exponential-backoff detail fetch, the per-photo
album/unorganized worker steps, and the shared seen-filename registry.
External effects (HTTP responses, exiftool results, `os.Remove`
outcomes) are supplied through explicit oracle values; the filesystem is
an association list from path to contents.
-/

/-! ## String helpers (strings.Contains, strings.Split, sanitizeFilename) -/

/-- Whether the pattern (first argument) is a prefix of the second list. -/
def startsWithChars : List Char → List Char → Bool
  | [], _ => true
  | _ :: _, [] => false
  | a :: as, b :: bs => a == b && startsWithChars as bs

/-- Whether the pattern occurs as a contiguous substring; mirrors
Go's `strings.Contains`. -/
def hasSubChars (pat : List Char) : List Char → Bool
  | [] => startsWithChars pat []
  | c :: rest => startsWithChars pat (c :: rest) || hasSubChars pat rest

/-- `strings.Contains s pat`. -/
def strContains (s pat : String) : Bool :=
  hasSubChars pat.data s.data

/-- `strings.Split` on the separator `"/"`, over the character list. -/
def splitOnSlashChars : List Char → List (List Char)
  | [] => [[]]
  | c :: cs =>
    let r := splitOnSlashChars cs
    if c = '/' then [] :: r
    else
      match r with
      | [] => [[c]]
      | h :: t => (c :: h) :: t

/-- The final path segment of a URL: the last element of
`strings.Split(url, "/")` (`parsePhotoFromStruct`,
`parsePhotoFromPhotosAPI`). -/
def lastSegment (s : String) : String :=
  ⟨(splitOnSlashChars s.data).getLastD []⟩

/-- Per-character action of the `strings.NewReplacer` in
`sanitizeFilename`: each of the nine reserved characters becomes `'-'`,
everything else is unchanged. -/
def sanitizeChar (c : Char) : Char :=
  if c = '/' then '-'
  else if c = '\\' then '-'
  else if c = ':' then '-'
  else if c = '*' then '-'
  else if c = '?' then '-'
  else if c = '"' then '-'
  else if c = '<' then '-'
  else if c = '>' then '-'
  else if c = '|' then '-'
  else c

/-- `sanitizeFilename` from `exporter.go`: applies the replacer to every
character of the string. -/
def sanitizeFilename (s : String) : String :=
  ⟨s.data.map sanitizeChar⟩

/-- The nine filename-reserved characters replaced by `sanitizeFilename`. -/
def reservedChars : List Char :=
  ['/', '\\', ':', '*', '?', '"', '<', '>', '|']

/-! ## Date rendering (`time.Time.Format("2006-01-02")`) -/

/-- Left-pad to two digits. -/
def pad2 (n : Nat) : String :=
  if n < 10 then "0" ++ toString n else toString n

/-- Left-pad to four digits. -/
def pad4 (n : Nat) : String :=
  if n < 10 then "000" ++ toString n
  else if n < 100 then "00" ++ toString n
  else if n < 1000 then "0" ++ toString n
  else toString n

/-- Proleptic Gregorian civil date from a count of days since the Unix
epoch (standard days-to-civil conversion). -/
def civilFromDays (z0 : Int) : Int × Int × Int :=
  let z := z0 + 719468
  let era := (if 0 ≤ z then z else z - 146096) / 146097
  let doe := z - era * 146097
  let yoe := (doe - doe / 1460 + doe / 36524 - doe / 146096) / 365
  let y := yoe + era * 400
  let doy := doe - (365 * yoe + yoe / 4 - yoe / 100)
  let mp := (5 * doy + 2) / 153
  let d := doy - (153 * mp + 2) / 5 + 1
  let m := mp + (if mp < 10 then 3 else -9)
  (y + (if m ≤ 2 then 1 else 0), m, d)

/-- Rendering of a Unix timestamp (seconds) as `YYYY-MM-DD`, modelling
`DateCreated.Format("2006-01-02")`. -/
def formatYMD (t : Int) : String :=
  let cd := civilFromDays (Int.fdiv t 86400)
  pad4 cd.1.toNat ++ "-" ++ pad2 cd.2.1.toNat ++ "-" ++ pad2 cd.2.2.toNat

/-! ## Data model -/

/-- The `Photo` struct: listing state populates id/title/url/filename,
a detail fetch fills description/tags/dateTaken. -/
structure Photo where
  id : String
  title : String
  description : String
  tags : List String
  originalURL : String
  filename : String
  dateTaken : String
deriving DecidableEq

/-- The `Album` struct; `dateCreated` is a Unix timestamp. -/
structure Album where
  id : String
  title : String
  description : String
  dateCreated : Int
  photos : List Photo
deriving DecidableEq

/-- One raw entry of a listing page (`photosets.Photo` /
`PhotoItem`): id, title and the original-resolution URL. -/
structure RawPhoto where
  id : String
  title : String
  urlO : String
deriving DecidableEq

/-- One page of a paginated listing response: the reported total page
count and the items of this page. -/
structure PageResp where
  pages : Nat
  photos : List RawPhoto
deriving DecidableEq

/-- The local filesystem as an association list from path to file
contents. -/
abbrev FS := List (String × String)

/-- `os.Stat(p) == nil`: some entry with this path exists. -/
def fsExists (fs : FS) (p : String) : Bool :=
  fs.any (fun e => e.1 == p)

/-- `os.Create` plus a full body write: replace any entry at the path. -/
def fsWrite (fs : FS) (p c : String) : FS :=
  (p, c) :: fs.filter (fun e => !(e.1 == p))

/-- `os.Remove`: drop the entry at the path. -/
def fsRemove (fs : FS) (p : String) : FS :=
  fs.filter (fun e => !(e.1 == p))

/-- Observable events of a run: filesystem stats, detail-fetch API
calls, HTTP GETs of photo bytes, sleeps (milliseconds), exiftool tag
writes, file removals, and seen-filename registrations. -/
inductive Ev where
  | statEv (path : String)
  | fetchAttemptEv (photoID : String)
  | httpGetEv (url : String)
  | sleepEv (ms : Nat)
  | tagEv (path : String)
  | removeEv (path : String)
  | registerEv (fn : String)
deriving DecidableEq

/-- The sleep durations occurring in a trace, in order. -/
def sleepsOf (evs : List Ev) : List Nat :=
  evs.filterMap (fun e => match e with | .sleepEv n => some n | _ => none)

/-- The number of photo-byte HTTP GET attempts in a trace. -/
def httpGetCount (evs : List Ev) : Nat :=
  (evs.filterMap (fun e => match e with | .httpGetEv u => some u | _ => none)).length

/-! ## Item Resolver: parsing and pagination (`parsePhotoFromStruct`,
`getAlbumPhotos`, `getAllPhotos`) -/

/-- `parsePhotoFromStruct` / `parsePhotoFromPhotosAPI`: build a
listing-state `Photo`; the filename is the last `/`-separated segment of
the source URL when the URL is non-empty. -/
def parsePhotoFromStruct (d : RawPhoto) : Photo :=
  { id := d.id
    title := d.title
    description := ""
    tags := []
    originalURL := d.urlO
    filename := if d.urlO = "" then "" else lastSegment d.urlO
    dateTaken := "" }

/-- The photos kept from one listing page: each entry is parsed and kept
exactly when its original URL is non-empty (the inner loop of
`getAlbumPhotos` / `getAllPhotos`). -/
def parsePage (r : PageResp) : List Photo :=
  (r.photos.map parsePhotoFromStruct).filter (fun p => p.originalURL != "")

/-- The page-draining loop shared by `getAlbumPhotos` and
`getAllPhotos`: fetch the current page, keep its parsed photos, stop
when the current page number reaches the response's reported total page
count, otherwise advance to the next page.  Returns the listing outcome
and the number of page requests issued.  The fuel argument bounds the
recursion and is chosen large enough for every listing whose responses
report a consistent page count. -/
def drainPhotoPages (resp : Nat → Except String PageResp) :
    Nat → Nat → Except String (List Photo) × Nat
  | 0, _ => (.ok [], 0)
  | fuel + 1, page =>
    match resp page with
    | .error e => (.error ("failed to get photos page " ++ toString page ++ ": " ++ e), 1)
    | .ok r =>
      if r.pages ≤ page then (.ok (parsePage r), 1)
      else
        let rest := drainPhotoPages resp fuel (page + 1)
        match rest.1 with
        | .error e => (.error e, rest.2 + 1)
        | .ok photos => (.ok (parsePage r ++ photos), rest.2 + 1)

/-- Fuel sufficient for a listing whose first response reports the total
page count. -/
def pageFuel (resp : Nat → Except String PageResp) : Nat :=
  match resp 1 with
  | .ok r => r.pages + 1
  | .error _ => 1

/-- `getAlbumPhotos`: drain every page of a photoset listing starting at
page 1. -/
def getAlbumPhotos (resp : Nat → Except String PageResp) :
    Except String (List Photo) × Nat :=
  drainPhotoPages resp (pageFuel resp) 1

/-- `getAllPhotos`: drain every page of the account-wide
`flickr.people.getPhotos` listing; the loop is identical to
`getAlbumPhotos`. -/
def getAllPhotos (resp : Nat → Except String PageResp) :
    Except String (List Photo) × Nat :=
  drainPhotoPages resp (pageFuel resp) 1

/-! ## Detail fetch with exponential backoff (`getPhotoInfo`) -/

/-- Outcome of one `flickr.DoGet` of `flickr.photos.getInfo`: a
transport error, an API error payload, or a successful detail record. -/
inductive FetchOutcome where
  | transportErr (msg : String)
  | apiErr (msg : String)
  | ok (title description : String) (tags : List String) (taken : String)

/-- The transport-level rate-limit test of `getPhotoInfo`
(line 883): the error text contains `"HTTP 429"` or `"rate limit"`. -/
def isRateLimitTransport (m : String) : Bool :=
  strContains m "HTTP 429" || strContains m "rate limit"

/-- The API-payload rate-limit test of `getPhotoInfo` (line 899): the
error message contains `"rate limit"` or `"too many requests"`. -/
def isRateLimitAPI (m : String) : Bool :=
  strContains m "rate limit" || strContains m "too many requests"

/-- Whether a fetch outcome is detected as rate-limited by
`getPhotoInfo`. -/
def rateLimited : FetchOutcome → Bool
  | .transportErr m => isRateLimitTransport m
  | .apiErr m => isRateLimitAPI m
  | .ok _ _ _ _ => false

/-- Whether a fetch outcome is a success. -/
def fetchIsOk : FetchOutcome → Bool
  | .ok _ _ _ _ => true
  | _ => false

/-- Whether an `Except` value is a success. -/
def exceptIsOk : Except String Photo → Bool
  | .ok _ => true
  | .error _ => false

/-- The retry loop of `getPhotoInfo`: up to `maxRetries = 5` attempts;
a rate-limited failure before the final attempt sleeps
`2s * 2^attempt` and retries; any other failure (or a rate limit on the
final attempt) returns the error; a success returns the parsed photo.
The fuel starts at 5 and the attempt counter at 0.  Returns the result,
the number of attempts issued, and the event trace. -/
def getPhotoInfoLoop (oracle : Nat → FetchOutcome) (photoID : String) :
    Nat → Nat → Except String Photo × Nat × List Ev
  | 0, _ => (.error ("failed to get photo info for " ++ photoID ++ " after 5 retry attempts"), 0, [])
  | fuel + 1, attempt =>
    match oracle attempt with
    | .transportErr m =>
      if isRateLimitTransport m ∧ attempt < 4 then
        let r := getPhotoInfoLoop oracle photoID fuel (attempt + 1)
        (r.1, r.2.1 + 1, .fetchAttemptEv photoID :: .sleepEv (2000 * 2 ^ attempt) :: r.2.2)
      else
        (.error ("failed to get photo info for " ++ photoID ++ " after 5 attempts: " ++ m), 1,
          [.fetchAttemptEv photoID])
    | .apiErr m =>
      if isRateLimitAPI m ∧ attempt < 4 then
        let r := getPhotoInfoLoop oracle photoID fuel (attempt + 1)
        (r.1, r.2.1 + 1, .fetchAttemptEv photoID :: .sleepEv (2000 * 2 ^ attempt) :: r.2.2)
      else
        (.error ("flickr API error for photo " ++ photoID ++ ": " ++ m), 1,
          [.fetchAttemptEv photoID])
    | .ok t d tags taken =>
      (.ok { id := photoID, title := t, description := d, tags := tags,
             originalURL := "", filename := "", dateTaken := taken }, 1,
        [.fetchAttemptEv photoID])

/-- `getPhotoInfo`: the retry loop started with 5 attempts of fuel at
attempt index 0. -/
def getPhotoInfo (oracle : Nat → FetchOutcome) (photoID : String) :
    Except String Photo × Nat × List Ev :=
  getPhotoInfoLoop oracle photoID 5 0

/-- `fetchPhotoMetadata`: fetch detail for a photo and copy
description, tags and capture date into it; on failure wrap the error.
Returns the updated photo (or error) and the trace. -/
def fetchPhotoMetadata (photo : Photo) (oracle : Nat → FetchOutcome) :
    Except String Photo × List Ev :=
  let r := getPhotoInfo oracle photo.id
  match r.1 with
  | .error e =>
    (.error ("failed to get metadata for photo " ++ photo.id ++ " (" ++ photo.title ++ "): " ++ e),
      r.2.2)
  | .ok d =>
    (.ok { photo with description := d.description, tags := d.tags, dateTaken := d.dateTaken },
      r.2.2)

/-! ## Transfer & Retry Policy (`downloadPhotoAttempt`, `downloadPhoto`) -/

/-- Outcome of the body copy in `downloadPhotoAttempt`: either the full
body is written, or the copy is interrupted after writing a prefix and
reports an error. -/
inductive CopyOutcome where
  | full
  | interrupted (written : String) (msg : String)

/-- The external behaviour of one `http.Get` in
`downloadPhotoAttempt`: a transport error, or a response with a status
code, status text, body, and a copy outcome for the body write. -/
inductive AttemptSpec where
  | transportErr (msg : String)
  | resp (status : Nat) (statusText : String) (body : String) (copy : CopyOutcome)

/-- `downloadPhotoAttempt`: issue the GET; on transport error return it;
on a non-200 status return an `HTTP <code>: <text>` error; otherwise
create the destination file and copy the body (a failed copy leaves the
prefix written so far in the file).  Returns the filesystem, the error
if any, and the trace. -/
def downloadPhotoAttempt (a : AttemptSpec) (fs : FS) (url outputPath : String) :
    FS × Option String × List Ev :=
  match a with
  | .transportErr m => (fs, some m, [.httpGetEv url])
  | .resp st stText body copy =>
    if st ≠ 200 then
      (fs, some ("HTTP " ++ toString st ++ ": " ++ stText), [.httpGetEv url])
    else
      match copy with
      | .full => (fsWrite fs outputPath body, none, [.httpGetEv url])
      | .interrupted w m => (fsWrite fs outputPath w, some m, [.httpGetEv url])

/-- The 429 test of `downloadPhoto` (line 547): the error text contains
`"HTTP 429"`. -/
def is429 (m : String) : Bool :=
  strContains m "HTTP 429"

/-- `downloadPhoto`: one attempt; if it fails with a 429-class error,
sleep 5 seconds and retry exactly once, returning the retry's outcome
(wrapped as `failed after retry` when it also fails); any other error is
returned immediately. -/
def downloadPhoto (a1 a2 : AttemptSpec) (fs : FS) (url outputPath : String) :
    FS × Option String × List Ev :=
  let r1 := downloadPhotoAttempt a1 fs url outputPath
  match r1.2.1 with
  | none => r1
  | some m =>
    if is429 m then
      let r2 := downloadPhotoAttempt a2 r1.1 url outputPath
      match r2.2.1 with
      | none => (r2.1, none, r1.2.2 ++ [.sleepEv 5000] ++ r2.2.2)
      | some m2 =>
        (r2.1, some ("failed after retry: " ++ m2), r1.2.2 ++ [.sleepEv 5000] ++ r2.2.2)
    else r1

/-! ## Collection Export Planner (`downloadAlbum`) and the unorganized
worker (`unorganizedPhotoWorker`) -/

/-- The external effects consumed while processing one photo: the
detail-fetch oracle, the two download attempt behaviours, the exiftool
result (`none` for success), and whether `os.Remove` succeeds on the
tag-failure cleanup path. -/
structure PhotoEnv where
  metaOracle : Nat → FetchOutcome
  io1 : AttemptSpec
  io2 : AttemptSpec
  tagErr : Option String
  removeOk : Bool

/-- Outcome of one iteration of the `downloadAlbum` photo loop. -/
inductive StepOutcome where
  | skipped
  | failed (fn : String)
  | succeeded
deriving DecidableEq

/-- One iteration of the `downloadAlbum` loop (lines 487-530): skip if
the destination exists; otherwise fetch metadata, download, and tag; a
tagging failure removes the downloaded file (best-effort) and records
the photo as failed. -/
def processAlbumPhoto (fs : FS) (albumPath : String) (photo : Photo) (env : PhotoEnv) :
    FS × StepOutcome × List Ev :=
  let photoPath := albumPath ++ "/" ++ photo.filename
  if fsExists fs photoPath then
    (fs, .skipped, [.statEv photoPath])
  else
    let m := fetchPhotoMetadata photo env.metaOracle
    match m.1 with
    | .error _ => (fs, .failed photo.filename, .statEv photoPath :: m.2)
    | .ok photoD =>
      let d := downloadPhoto env.io1 env.io2 fs photoD.originalURL photoPath
      match d.2.1 with
      | some _ => (d.1, .failed photo.filename, .statEv photoPath :: m.2 ++ d.2.2)
      | none =>
        match env.tagErr with
        | some _ =>
          ((if env.removeOk then fsRemove d.1 photoPath else d.1),
            .failed photo.filename,
            .statEv photoPath :: m.2 ++ d.2.2 ++ [.tagEv photoPath, .removeEv photoPath])
        | none =>
          (d.1, .succeeded, .statEv photoPath :: m.2 ++ d.2.2 ++ [.tagEv photoPath])

/-- The photo loop of `downloadAlbum`: process each photo in listing
order, collect failed filenames in order, and sleep 100ms after a
successful download that is not the last photo of the album. -/
def downloadAlbumLoop (albumPath : String) :
    List (Photo × PhotoEnv) → FS → Nat → Nat → FS × List String × List Ev
  | [], fs, _, _ => (fs, [], [])
  | (photo, env) :: rest, fs, i, total =>
    let s := processAlbumPhoto fs albumPath photo env
    match s.2.1 with
    | .skipped =>
      let r := downloadAlbumLoop albumPath rest s.1 (i + 1) total
      (r.1, r.2.1, s.2.2 ++ r.2.2)
    | .failed fn =>
      let r := downloadAlbumLoop albumPath rest s.1 (i + 1) total
      (r.1, fn :: r.2.1, s.2.2 ++ r.2.2)
    | .succeeded =>
      let sleeps := if i < total - 1 then [Ev.sleepEv 100] else []
      let r := downloadAlbumLoop albumPath rest s.1 (i + 1) total
      (r.1, r.2.1, s.2.2 ++ sleeps ++ r.2.2)

/-- The destination directory name computed by `downloadAlbum`:
`"<YYYY-MM-DD of DateCreated> <sanitized title>"`. -/
def downloadAlbumDirName (album : Album) : String :=
  formatYMD album.dateCreated ++ " " ++ sanitizeFilename album.title

/-- `downloadAlbum`: create the album directory, run the photo loop, and
return nil on full success or an error carrying the failure count and
the failed filenames otherwise. -/
def downloadAlbum (outputDir : String) (album : Album) (envs : List PhotoEnv) (fs : FS) :
    FS × Except (Nat × List String) Unit × List Ev :=
  let albumPath := outputDir ++ "/" ++ downloadAlbumDirName album
  let r := downloadAlbumLoop albumPath (album.photos.zip envs) fs 0 album.photos.length
  (r.1, if r.2.1.length > 0 then .error (r.2.1.length, r.2.1) else .ok (), r.2.2)

/-- One iteration of `unorganizedPhotoWorker` (lines 721-764): the same
per-photo steps as the album loop, but a skip reports success to the
error channel and a success sleeps 100ms unconditionally.  The second
component is the error sent to the channel (`none` on success or
skip). -/
def processUnorganizedPhoto (fs : FS) (unorganizedDir : String) (photo : Photo) (env : PhotoEnv) :
    FS × Option String × List Ev :=
  let photoPath := unorganizedDir ++ "/" ++ photo.filename
  if fsExists fs photoPath then
    (fs, none, [.statEv photoPath])
  else
    let m := fetchPhotoMetadata photo env.metaOracle
    match m.1 with
    | .error e =>
      (fs, some ("failed to get metadata for " ++ photo.filename ++ ": " ++ e),
        .statEv photoPath :: m.2)
    | .ok photoD =>
      let d := downloadPhoto env.io1 env.io2 fs photoD.originalURL photoPath
      match d.2.1 with
      | some e =>
        (d.1, some ("failed to download " ++ photo.filename ++ ": " ++ e),
          .statEv photoPath :: m.2 ++ d.2.2)
      | none =>
        match env.tagErr with
        | some e =>
          ((if env.removeOk then fsRemove d.1 photoPath else d.1),
            some ("failed to write metadata for " ++ photo.filename ++ ": " ++ e),
            .statEv photoPath :: m.2 ++ d.2.2 ++ [.tagEv photoPath, .removeEv photoPath])
        | none =>
          (d.1, none,
            .statEv photoPath :: m.2 ++ d.2.2 ++ [.tagEv photoPath, .sleepEv 100])

/-! ## Concurrent Dispatcher: the seen-filename registry
(`albumWorkerWithTracking`, `downloadUnorganizedPhotos`) -/

/-- Set-insert into the seen-filename registry
(`downloadedFiles[photo.Filename] = true`). -/
def regInsert (reg : List String) (fn : String) : List String :=
  if reg.contains fn then reg else fn :: reg

/-- The registration loop of `albumWorkerWithTracking` (lines 264-269):
record every filename of the album under the mutex before the album is
downloaded. -/
def registerPhotos (reg : List String) (photos : List Photo) : List String :=
  photos.foldl (fun r p => regInsert r p.filename) reg

/-- One album processed by `albumWorkerWithTracking`: all of the album's
filenames are registered first, then the album is downloaded.  Returns
the updated registry, filesystem, and a trace in which every
registration precedes every download event. -/
def albumWorkerStep (outputDir : String) (reg : List String) (fs : FS)
    (album : Album) (envs : List PhotoEnv) : List String × FS × List Ev :=
  let d := downloadAlbum outputDir album envs fs
  (registerPhotos reg album.photos, d.1,
    (album.photos.map fun p => Ev.registerEv p.filename) ++ d.2.2)

/-- The collection phase: every album is processed by a worker before
the unorganized phase starts (`wg.Wait()`); the registry contents at the
barrier do not depend on worker interleaving, so the phase is modelled
as a fold of `albumWorkerStep`. -/
def collectionPhase (outputDir : String) :
    List (Album × List PhotoEnv) → List String → FS → List String × FS × List Ev
  | [], reg, fs => (reg, fs, [])
  | (album, envs) :: rest, reg, fs =>
    let s := albumWorkerStep outputDir reg fs album envs
    let r := collectionPhase outputDir rest s.1 s.2.1
    (r.1, r.2.1, s.2.2 ++ r.2.2)

/-- The filter of `downloadUnorganizedPhotos` (lines 634-640): keep
exactly the account-wide photos whose filename is not in the
seen-filename registry. -/
def downloadUnorganizedSelection (allPhotos : List Photo) (reg : List String) : List Photo :=
  allPhotos.filter fun p => !(reg.contains p.filename)

/-! ## Helper lemmas -/

theorem sanitizeChar_cases (c : Char) :
    sanitizeChar c = if c ∈ reservedChars then '-' else c := by
  by_cases h : c ∈ reservedChars
  · rw [if_pos h]
    simp only [reservedChars, List.mem_cons, List.not_mem_nil, or_false] at h
    rcases h with h | h | h | h | h | h | h | h | h <;> subst h <;> rfl
  · rw [if_neg h]
    simp only [reservedChars, List.mem_cons, List.not_mem_nil, or_false, not_or] at h
    obtain ⟨h1, h2, h3, h4, h5, h6, h7, h8, h9⟩ := h
    simp [sanitizeChar, h1, h2, h3, h4, h5, h6, h7, h8, h9]

theorem sanitizeChar_idem (c : Char) :
    sanitizeChar (sanitizeChar c) = sanitizeChar c := by
  rw [sanitizeChar_cases c]
  by_cases h : c ∈ reservedChars
  · rw [if_pos h]; decide
  · rw [if_neg h, sanitizeChar_cases c, if_neg h]

theorem sanitizeFilename_idem (s : String) :
    sanitizeFilename (sanitizeFilename s) = sanitizeFilename s := by
  show (⟨(s.data.map sanitizeChar).map sanitizeChar⟩ : String) = ⟨s.data.map sanitizeChar⟩
  congr 1
  rw [List.map_map]
  exact List.map_congr_left (fun a _ => sanitizeChar_idem a)

theorem downloadPhotoAttempt_trace (a : AttemptSpec) (fs : FS) (url path : String) :
    (downloadPhotoAttempt a fs url path).2.2 = [.httpGetEv url] := by
  cases a with
  | transportErr m => rfl
  | resp st sx body copy =>
    simp only [downloadPhotoAttempt]
    split
    · rfl
    · cases copy <;> rfl

theorem fsExists_fsRemove (fs : FS) (p : String) :
    fsExists (fsRemove fs p) p = false := by
  induction fs with
  | nil => rfl
  | cons e rest ih =>
    by_cases h : e.1 == p
    · simp [fsExists, fsRemove, h] at ih ⊢
    · simp only [Bool.not_eq_true] at h
      simp [fsExists, fsRemove, h] at ih ⊢

/-! ## Claim theorems -/

/-- C6: for every collection with creation timestamp T and title S, the
destination directory name is the `YYYY-MM-DD` rendering of T, a single
space, and `sanitize(S)`; `sanitize` maps each character of the string,
turning exactly the nine reserved characters `/ \ : * ? " < > |` into
`'-'` and leaving every other character unchanged, and it is
idempotent. -/
theorem c6_directory_name_and_sanitize :
    (∀ album : Album,
      downloadAlbumDirName album
        = formatYMD album.dateCreated ++ " " ++ sanitizeFilename album.title)
    ∧ (∀ c : Char, sanitizeChar c = if c ∈ reservedChars then '-' else c)
    ∧ (∀ s : String, (sanitizeFilename s).data = s.data.map sanitizeChar)
    ∧ (∀ s : String, sanitizeFilename (sanitizeFilename s) = sanitizeFilename s) :=
  ⟨fun _ => rfl, sanitizeChar_cases, fun _ => rfl, sanitizeFilename_idem⟩

/-- C10: a single download attempt that fails before the body is
written — a transport error on the GET or a response status other than
200 — leaves the filesystem exactly as it was (the destination file is
created only after a 200 status has been observed). -/
theorem c10_no_file_created_before_200 :
    (∀ (fs : FS) (url path m : String),
      downloadPhotoAttempt (.transportErr m) fs url path
        = (fs, some m, [.httpGetEv url]))
    ∧ (∀ (fs : FS) (url path : String) (st : Nat) (sx body : String) (copy : CopyOutcome),
        st ≠ 200 →
        downloadPhotoAttempt (.resp st sx body copy) fs url path
          = (fs, some ("HTTP " ++ toString st ++ ": " ++ sx), [.httpGetEv url])) := by
  constructor
  · intro fs url path m
    rfl
  · intro fs url path st sx body copy h
    simp [downloadPhotoAttempt, h]

/-- C10 witness: a 404 response creates no file. -/
theorem c10_no_file_created_before_200_witness :
    (404 ≠ 200)
    ∧ downloadPhotoAttempt (.resp 404 "Not Found" "b" .full) [] "u" "p"
        = ([], some ("HTTP " ++ toString 404 ++ ": " ++ "Not Found"), [.httpGetEv "u"]) :=
  ⟨by decide, c10_no_file_created_before_200.2 [] "u" "p" 404 "Not Found" "b" .full (by decide)⟩

/-- C3: for a single-asset download, a first attempt that succeeds is
never retried; a first attempt whose error is detected as HTTP 429
triggers exactly one retry after a 5-second sleep and the retry's
outcome is reported (a second failure is terminal — the trace holds
exactly two GETs); a first attempt failing with a non-429 error is
terminal immediately with no retry. -/
theorem c3_download_retry_policy :
    ∀ (a1 a2 : AttemptSpec) (fs : FS) (url path : String),
      (((downloadPhotoAttempt a1 fs url path).2.1 = none →
          downloadPhoto a1 a2 fs url path = downloadPhotoAttempt a1 fs url path
          ∧ httpGetCount (downloadPhoto a1 a2 fs url path).2.2 = 1))
      ∧ (∀ m, (downloadPhotoAttempt a1 fs url path).2.1 = some m → is429 m = true →
          (downloadPhoto a1 a2 fs url path).2.2
            = [.httpGetEv url, .sleepEv 5000, .httpGetEv url]
          ∧ httpGetCount (downloadPhoto a1 a2 fs url path).2.2 = 2
          ∧ ((downloadPhotoAttempt a2 (downloadPhotoAttempt a1 fs url path).1 url path).2.1 = none →
              (downloadPhoto a1 a2 fs url path).2.1 = none)
          ∧ (∀ m2,
              (downloadPhotoAttempt a2 (downloadPhotoAttempt a1 fs url path).1 url path).2.1 = some m2 →
              (downloadPhoto a1 a2 fs url path).2.1 = some ("failed after retry: " ++ m2)))
      ∧ (∀ m, (downloadPhotoAttempt a1 fs url path).2.1 = some m → is429 m = false →
          downloadPhoto a1 a2 fs url path = downloadPhotoAttempt a1 fs url path
          ∧ httpGetCount (downloadPhoto a1 a2 fs url path).2.2 = 1) := by
  intro a1 a2 fs url path
  refine ⟨?_, ?_, ?_⟩
  · intro h
    have hd : downloadPhoto a1 a2 fs url path = downloadPhotoAttempt a1 fs url path := by
      simp only [downloadPhoto, h]
    refine ⟨hd, ?_⟩
    rw [hd, downloadPhotoAttempt_trace]
    rfl
  · intro m hm h429
    have hd' :
        (downloadPhoto a1 a2 fs url path) =
          (match (downloadPhotoAttempt a2 (downloadPhotoAttempt a1 fs url path).1 url path).2.1 with
            | none =>
              ((downloadPhotoAttempt a2 (downloadPhotoAttempt a1 fs url path).1 url path).1, none,
                (downloadPhotoAttempt a1 fs url path).2.2 ++ [.sleepEv 5000] ++
                  (downloadPhotoAttempt a2 (downloadPhotoAttempt a1 fs url path).1 url path).2.2)
            | some m2 =>
              ((downloadPhotoAttempt a2 (downloadPhotoAttempt a1 fs url path).1 url path).1,
                some ("failed after retry: " ++ m2),
                (downloadPhotoAttempt a1 fs url path).2.2 ++ [.sleepEv 5000] ++
                  (downloadPhotoAttempt a2 (downloadPhotoAttempt a1 fs url path).1 url path).2.2)) := by
      simp only [downloadPhoto, hm, h429, if_true]
    refine ⟨?_, ?_, ?_, ?_⟩
    · rw [hd']
      rcases h2 : (downloadPhotoAttempt a2 (downloadPhotoAttempt a1 fs url path).1 url path).2.1 with _ | m2 <;>
        simp [h2, downloadPhotoAttempt_trace]
    · rw [hd']
      rcases h2 : (downloadPhotoAttempt a2 (downloadPhotoAttempt a1 fs url path).1 url path).2.1 with _ | m2 <;>
        simp [h2, downloadPhotoAttempt_trace, httpGetCount]
    · intro h2
      rw [hd']
      simp [h2]
    · intro m2 h2
      rw [hd']
      simp [h2]
  · intro m hm h429
    have hd : downloadPhoto a1 a2 fs url path = downloadPhotoAttempt a1 fs url path := by
      simp only [downloadPhoto, hm, h429]
      rfl
    refine ⟨hd, ?_⟩
    rw [hd, downloadPhotoAttempt_trace]
    rfl

/-- C3 witness: a 429 response followed by a successful retry — one
5-second sleep, two GETs, success reported. -/
theorem c3_download_retry_policy_witness :
    (downloadPhotoAttempt (.resp 429 "Too Many Requests" "" .full) [] "u" "p").2.1
        = some "HTTP 429: Too Many Requests"
    ∧ is429 "HTTP 429: Too Many Requests" = true
    ∧ (downloadPhoto (.resp 429 "Too Many Requests" "" .full)
        (.resp 200 "OK" "body" .full) [] "u" "p").2.2
        = [.httpGetEv "u", .sleepEv 5000, .httpGetEv "u"] := by
  refine ⟨by decide, by decide, ?_⟩
  exact ((c3_download_retry_policy (.resp 429 "Too Many Requests" "" .full)
    (.resp 200 "OK" "body" .full) [] "u" "p").2.1 "HTTP 429: Too Many Requests"
    (by decide) (by decide)).1

/-- C9 counterexample: a listed asset whose non-empty source URL ends in
`/` ("a/") is NOT excluded from the Resolver's result — it is returned
with an empty derived filename, because the exclusion tests the URL,
not the filename.  The single-page listing below yields exactly one
photo, whose filename is empty. -/
theorem c9_counterexample :
    ((parsePage { pages := 1, photos := [{ id := "1", title := "t", urlO := "a/" }] }).map
        Photo.filename = [""])
    ∧ ((parsePage { pages := 1, photos := [{ id := "1", title := "t", urlO := "a/" }] }).map
        Photo.originalURL = ["a/"])
    ∧ (parsePage { pages := 1, photos := [{ id := "1", title := "t", urlO := "a/" }] }).length
        = 1 := by
  decide

/-- C9 (amended): the derived filename is the final `/`-separated
segment of the source URL for every asset with a non-empty URL, and the
Resolver excludes exactly the assets whose source URL is empty — an
asset with a non-empty URL is always kept, even when its derived
filename is empty (URL ending in `/`). -/
theorem c9_amended_filename_derivation :
    (∀ d : RawPhoto,
      (parsePhotoFromStruct d).filename = (if d.urlO = "" then "" else lastSegment d.urlO))
    ∧ (∀ d : RawPhoto, (parsePhotoFromStruct d).originalURL = d.urlO)
    ∧ (∀ r : PageResp,
        parsePage r = (r.photos.filter (fun d => d.urlO != "")).map parsePhotoFromStruct) := by
  refine ⟨fun _ => rfl, fun _ => rfl, ?_⟩
  intro r
  show (r.photos.map parsePhotoFromStruct).filter (fun p => p.originalURL != "") = _
  rw [List.filter_map]
  rfl

/-- C8 counterexample: a collection with a single asset whose detail
fetch fails yields a non-empty failure list, and `downloadAlbum` then
returns an ERROR (carrying the count and the list) rather than a normal
return — contradicting "a result with a non-empty failure list is still
a normal (non-error) return". -/
theorem c8_counterexample :
    (downloadAlbum "o"
        { id := "a", title := "T", description := "", dateCreated := 0,
          photos := [{ id := "1", title := "t", description := "", tags := [],
                       originalURL := "u/x.jpg", filename := "x.jpg", dateTaken := "" }] }
        [{ metaOracle := fun _ => .transportErr "boom", io1 := .transportErr "e",
           io2 := .transportErr "e", tagErr := none, removeOk := true }]
        []).2.1
      = Except.error (1, ["x.jpg"]) := by
  rfl

/-- C8 (amended): `downloadAlbum` attempts every asset regardless of
earlier per-asset failures — the failure list of a non-empty photo list
is the head's contribution followed by the failures of the remaining
photos — and it returns a normal (nil) result exactly when the failure
list is empty; when the list is non-empty it returns a single aggregate
error value carrying the failure count and the full ordered list of
failed filenames (run-wide aggregation still being the Dispatcher's
job). -/
theorem c8_amended_error_on_partial_failure :
    (∀ (albumPath : String) (x : Photo × PhotoEnv) (xs : List (Photo × PhotoEnv))
       (fs : FS) (i total : Nat),
      (downloadAlbumLoop albumPath (x :: xs) fs i total).2.1
        = (match (processAlbumPhoto fs albumPath x.1 x.2).2.1 with
            | .failed fn => [fn]
            | _ => [])
          ++ (downloadAlbumLoop albumPath xs (processAlbumPhoto fs albumPath x.1 x.2).1
                (i + 1) total).2.1)
    ∧ (∀ (outputDir : String) (album : Album) (envs : List PhotoEnv) (fs : FS),
        (downloadAlbum outputDir album envs fs).2.1
          = (if (downloadAlbumLoop (outputDir ++ "/" ++ downloadAlbumDirName album)
                    (album.photos.zip envs) fs 0 album.photos.length).2.1 = []
             then Except.ok ()
             else Except.error
               ((downloadAlbumLoop (outputDir ++ "/" ++ downloadAlbumDirName album)
                    (album.photos.zip envs) fs 0 album.photos.length).2.1.length,
                 (downloadAlbumLoop (outputDir ++ "/" ++ downloadAlbumDirName album)
                    (album.photos.zip envs) fs 0 album.photos.length).2.1))) := by
  constructor
  · intro albumPath x xs fs i total
    rcases x with ⟨photo, env⟩
    rcases h : (processAlbumPhoto fs albumPath photo env).2.1 with _ | fn | _ <;>
      simp [downloadAlbumLoop, h]
  · intro outputDir album envs fs
    simp only [downloadAlbum]
    rcases h : (downloadAlbumLoop (outputDir ++ "/" ++ downloadAlbumDirName album)
        (album.photos.zip envs) fs 0 album.photos.length).2.1 with _ | ⟨fn, rest⟩ <;>
      simp [h]

/-- C1: when the destination file already exists at the moment an asset
is processed — any contents, existence alone — both the album worker
step and the unorganized worker step skip the asset entirely: the
filesystem is returned unchanged, the step is a skip (not a failure),
and the trace holds only the existence check, so no detail fetch and no
download attempt is issued. -/
theorem c1_existing_file_skips :
    ∀ (fs : FS) (dir : String) (photo : Photo) (env : PhotoEnv),
      fsExists fs (dir ++ "/" ++ photo.filename) = true →
      processAlbumPhoto fs dir photo env
          = (fs, .skipped, [.statEv (dir ++ "/" ++ photo.filename)])
      ∧ processUnorganizedPhoto fs dir photo env
          = (fs, none, [.statEv (dir ++ "/" ++ photo.filename)]) := by
  intro fs dir photo env h
  constructor
  · simp [processAlbumPhoto, h]
  · simp [processUnorganizedPhoto, h]

/-- C1 witness: a file already at `d/x.jpg` is skipped. -/
theorem c1_existing_file_skips_witness :
    fsExists [("d/x.jpg", "bytes")] ("d" ++ "/" ++ "x.jpg") = true
    ∧ processAlbumPhoto [("d/x.jpg", "bytes")] "d"
        { id := "1", title := "t", description := "", tags := [],
          originalURL := "u/x.jpg", filename := "x.jpg", dateTaken := "" }
        { metaOracle := fun _ => .transportErr "e", io1 := .transportErr "e",
          io2 := .transportErr "e", tagErr := none, removeOk := true }
        = ([("d/x.jpg", "bytes")], .skipped, [.statEv ("d" ++ "/" ++ "x.jpg")]) :=
  ⟨by decide,
    (c1_existing_file_skips [("d/x.jpg", "bytes")] "d"
      { id := "1", title := "t", description := "", tags := [],
        originalURL := "u/x.jpg", filename := "x.jpg", dateTaken := "" }
      { metaOracle := fun _ => .transportErr "e", io1 := .transportErr "e",
        io2 := .transportErr "e", tagErr := none, removeOk := true }
      (by decide)).1⟩

/-- C2: when an asset's metadata fetch and download both succeed but
tagging then fails, the asset is recorded as failed; the just-downloaded
destination file is removed (when the removal succeeds the file no
longer exists), a removal is always attempted (the trace holds a remove
event), the outcome for the asset is the same failure whether or not
the removal succeeds, and the album loop continues with the remaining
photos — the failure list is this filename followed by the failures of
the siblings.  The unorganized worker behaves the same, reporting a
metadata-write failure for the asset. -/
theorem c2_tag_failure_removes_file :
    ∀ (fs : FS) (dir : String) (photo photoD : Photo) (env : PhotoEnv) (emsg : String),
      fsExists fs (dir ++ "/" ++ photo.filename) = false →
      (fetchPhotoMetadata photo env.metaOracle).1 = .ok photoD →
      (downloadPhoto env.io1 env.io2 fs photoD.originalURL (dir ++ "/" ++ photo.filename)).2.1
        = none →
      env.tagErr = some emsg →
      ((processAlbumPhoto fs dir photo env).2.1 = .failed photo.filename
       ∧ (env.removeOk = true →
            fsExists (processAlbumPhoto fs dir photo env).1 (dir ++ "/" ++ photo.filename)
              = false)
       ∧ Ev.removeEv (dir ++ "/" ++ photo.filename) ∈ (processAlbumPhoto fs dir photo env).2.2
       ∧ (processUnorganizedPhoto fs dir photo env).2.1
           = some ("failed to write metadata for " ++ photo.filename ++ ": " ++ emsg)
       ∧ (env.removeOk = true →
            fsExists (processUnorganizedPhoto fs dir photo env).1 (dir ++ "/" ++ photo.filename)
              = false)
       ∧ (∀ (rest : List (Photo × PhotoEnv)) (i total : Nat),
            (downloadAlbumLoop dir ((photo, env) :: rest) fs i total).2.1
              = photo.filename ::
                  (downloadAlbumLoop dir rest (processAlbumPhoto fs dir photo env).1
                    (i + 1) total).2.1)) := by
  intro fs dir photo photoD env emsg hex hmeta hdl htag
  have halbum : processAlbumPhoto fs dir photo env
      = ((if env.removeOk then
            fsRemove (downloadPhoto env.io1 env.io2 fs photoD.originalURL
              (dir ++ "/" ++ photo.filename)).1 (dir ++ "/" ++ photo.filename)
          else (downloadPhoto env.io1 env.io2 fs photoD.originalURL
              (dir ++ "/" ++ photo.filename)).1),
          .failed photo.filename,
          .statEv (dir ++ "/" ++ photo.filename) :: (fetchPhotoMetadata photo env.metaOracle).2
            ++ (downloadPhoto env.io1 env.io2 fs photoD.originalURL
                (dir ++ "/" ++ photo.filename)).2.2
            ++ [.tagEv (dir ++ "/" ++ photo.filename),
                .removeEv (dir ++ "/" ++ photo.filename)]) := by
    simp only [processAlbumPhoto, hex, Bool.false_eq_true, if_false, hmeta, hdl, htag]
  have hunorg : processUnorganizedPhoto fs dir photo env
      = ((if env.removeOk then
            fsRemove (downloadPhoto env.io1 env.io2 fs photoD.originalURL
              (dir ++ "/" ++ photo.filename)).1 (dir ++ "/" ++ photo.filename)
          else (downloadPhoto env.io1 env.io2 fs photoD.originalURL
              (dir ++ "/" ++ photo.filename)).1),
          some ("failed to write metadata for " ++ photo.filename ++ ": " ++ emsg),
          .statEv (dir ++ "/" ++ photo.filename) :: (fetchPhotoMetadata photo env.metaOracle).2
            ++ (downloadPhoto env.io1 env.io2 fs photoD.originalURL
                (dir ++ "/" ++ photo.filename)).2.2
            ++ [.tagEv (dir ++ "/" ++ photo.filename),
                .removeEv (dir ++ "/" ++ photo.filename)]) := by
    simp only [processUnorganizedPhoto, hex, Bool.false_eq_true, if_false, hmeta, hdl, htag]
  refine ⟨by rw [halbum], ?_, ?_, by rw [hunorg], ?_, ?_⟩
  · intro hrm
    rw [halbum]
    simp only [hrm, if_true]
    exact fsExists_fsRemove _ _
  · rw [halbum]
    simp
  · intro hrm
    rw [hunorg]
    simp only [hrm, if_true]
    exact fsExists_fsRemove _ _
  · intro rest i total
    have hout : (processAlbumPhoto fs dir photo env).2.1 = .failed photo.filename := by
      rw [halbum]
    simp only [downloadAlbumLoop]
    rw [hout]

/-- C2 witness: a successful download followed by a tag failure marks
the asset failed and the destination no longer exists. -/
theorem c2_tag_failure_removes_file_witness :
    fsExists [] ("d" ++ "/" ++ "x.jpg") = false
    ∧ ((processAlbumPhoto [] "d"
          { id := "1", title := "t", description := "", tags := [],
            originalURL := "u/x.jpg", filename := "x.jpg", dateTaken := "" }
          { metaOracle := fun _ => .ok "T" "D" [] "tk", io1 := .resp 200 "OK" "body" .full,
            io2 := .transportErr "e", tagErr := some "exif", removeOk := true }).2.1
        = .failed "x.jpg") :=
  ⟨by decide,
    (c2_tag_failure_removes_file [] "d"
      { id := "1", title := "t", description := "", tags := [],
        originalURL := "u/x.jpg", filename := "x.jpg", dateTaken := "" }
      { id := "1", title := "t", description := "D", tags := [],
        originalURL := "u/x.jpg", filename := "x.jpg", dateTaken := "tk" }
      { metaOracle := fun _ => .ok "T" "D" [] "tk", io1 := .resp 200 "OK" "body" .full,
        io2 := .transportErr "e", tagErr := some "exif", removeOk := true }
      "exif" (by decide) (by rfl) (by rfl) rfl).1⟩

/-! ## Registry membership lemmas -/

theorem mem_regInsert_self (reg : List String) (fn : String) : fn ∈ regInsert reg fn := by
  unfold regInsert
  split
  · exact List.elem_iff.mp ‹_›
  · exact List.mem_cons_self fn reg

theorem mem_regInsert_of_mem (reg : List String) (fn x : String) (h : x ∈ reg) :
    x ∈ regInsert reg fn := by
  unfold regInsert
  split
  · exact h
  · exact List.mem_cons_of_mem fn h

theorem mem_registerPhotos_of_mem (photos : List Photo) :
    ∀ (reg : List String) (x : String), x ∈ reg → x ∈ registerPhotos reg photos := by
  induction photos with
  | nil => intro reg x h; exact h
  | cons p rest ih =>
    intro reg x h
    exact ih (regInsert reg p.filename) x (mem_regInsert_of_mem reg p.filename x h)

theorem mem_registerPhotos_self (photos : List Photo) (p : Photo) (hp : p ∈ photos) :
    ∀ reg : List String, p.filename ∈ registerPhotos reg photos := by
  induction photos with
  | nil => cases hp
  | cons q rest ih =>
    intro reg
    rcases List.mem_cons.mp hp with h | h
    · subst h
      exact mem_registerPhotos_of_mem rest (regInsert reg p.filename) p.filename
        (mem_regInsert_self reg p.filename)
    · exact ih h (regInsert reg q.filename)

theorem mem_collectionPhase_of_mem (outputDir : String)
    (entries : List (Album × List PhotoEnv)) :
    ∀ (reg : List String) (fs : FS) (x : String), x ∈ reg →
      x ∈ (collectionPhase outputDir entries reg fs).1 := by
  induction entries with
  | nil => intro reg fs x h; exact h
  | cons e rest ih =>
    rcases e with ⟨album, envs⟩
    intro reg fs x h
    exact ih (registerPhotos reg album.photos) (downloadAlbum outputDir album envs fs).1 x
      (mem_registerPhotos_of_mem album.photos reg x h)

theorem claimed_mem_collectionPhase (outputDir : String)
    (entries : List (Album × List PhotoEnv)) :
    ∀ (reg : List String) (fs : FS) (ae : Album × List PhotoEnv), ae ∈ entries →
      ∀ p : Photo, p ∈ ae.1.photos →
        p.filename ∈ (collectionPhase outputDir entries reg fs).1 := by
  induction entries with
  | nil => intro reg fs ae h; cases h
  | cons e rest ih =>
    rcases e with ⟨album, envs⟩
    intro reg fs ae hae p hp
    rcases List.mem_cons.mp hae with h | h
    · subst h
      exact mem_collectionPhase_of_mem outputDir rest (registerPhotos reg album.photos)
        (downloadAlbum outputDir album envs fs).1 p.filename
        (mem_registerPhotos_self album.photos p hp reg)
    · exact ih (registerPhotos reg album.photos) (downloadAlbum outputDir album envs fs).1
        ae h p hp

/-- C4: the album worker registers every listed filename of a
collection before any of that collection's download events (the worker
trace is the registrations, in listing order, followed by the download
trace), the registry it leaves is exactly the registration fold, the
unattributed phase selects exactly the account-wide photos whose
filename is not in the registry at the post-collection-phase barrier,
and consequently no photo whose filename was claimed by any collection
of the run is ever selected for the "Unorganized Photos" download. -/
theorem c4_registry_blocks_unorganized :
    (∀ (outputDir : String) (reg : List String) (fs : FS) (album : Album)
       (envs : List PhotoEnv),
      (albumWorkerStep outputDir reg fs album envs).2.2
        = (album.photos.map fun p => Ev.registerEv p.filename)
            ++ (downloadAlbum outputDir album envs fs).2.2
      ∧ (albumWorkerStep outputDir reg fs album envs).1 = registerPhotos reg album.photos)
    ∧ (∀ (outputDir : String) (entries : List (Album × List PhotoEnv)) (fs : FS)
         (allPhotos : List Photo),
        downloadUnorganizedSelection allPhotos (collectionPhase outputDir entries [] fs).1
          = allPhotos.filter
              (fun p => !((collectionPhase outputDir entries [] fs).1.contains p.filename))
        ∧ ∀ ae, ae ∈ entries → ∀ p : Photo, p ∈ ae.1.photos →
            ∀ q : Photo,
              q ∈ downloadUnorganizedSelection allPhotos
                    (collectionPhase outputDir entries [] fs).1 →
              q.filename ≠ p.filename) := by
  constructor
  · intro outputDir reg fs album envs
    exact ⟨rfl, rfl⟩
  · intro outputDir entries fs allPhotos
    refine ⟨rfl, ?_⟩
    intro ae hae p hp q hq
    have hpmem : p.filename ∈ (collectionPhase outputDir entries [] fs).1 :=
      claimed_mem_collectionPhase outputDir entries [] fs ae hae p hp
    have hqpred := List.of_mem_filter hq
    intro heq
    rw [heq] at hqpred
    simp at hqpred
    exact hqpred hpmem

/-- Concrete fixtures for witnesses. -/
def photoX : Photo :=
  { id := "1", title := "t", description := "", tags := [],
    originalURL := "u/x.jpg", filename := "x.jpg", dateTaken := "" }

def photoY : Photo :=
  { id := "2", title := "s", description := "", tags := [],
    originalURL := "u/y.jpg", filename := "y.jpg", dateTaken := "" }

def albumX : Album :=
  { id := "a", title := "T", description := "", dateCreated := 0, photos := [photoX] }

/-- C4 witness: the album claiming `x.jpg` keeps any same-named photo
out of the unorganized selection; the differently named `y.jpg` photo is
selected and indeed differs. -/
theorem c4_registry_blocks_unorganized_witness :
    ((albumX, ([] : List PhotoEnv)) ∈ [(albumX, ([] : List PhotoEnv))])
    ∧ photoX ∈ albumX.photos
    ∧ photoY ∈ downloadUnorganizedSelection [photoY]
        (collectionPhase "o" [(albumX, [])] [] []).1
    ∧ photoY.filename ≠ photoX.filename := by
  refine ⟨List.mem_cons_self _ _, by decide, by decide, ?_⟩
  exact (c4_registry_blocks_unorganized.2 "o" [(albumX, [])] [] [photoY]).2
    (albumX, []) (List.mem_cons_self _ _) photoX (by decide) photoY (by decide)

/-! ## Pagination lemmas -/

theorem drainPhotoPages_run (resp : Nat → Except String PageResp) (pg : Nat → PageResp)
    (P : Nat) (hresp : ∀ p, 1 ≤ p → p ≤ P → resp p = .ok (pg p))
    (hpg : ∀ p, 1 ≤ p → p ≤ P → (pg p).pages = P) :
    ∀ (k page : Nat), 1 ≤ page → page + k = P → ∀ fuel, k + 1 ≤ fuel →
      drainPhotoPages resp fuel page
        = (.ok (((List.range' page (k + 1)).map fun q => parsePage (pg q)).flatten), k + 1) := by
  intro k
  induction k with
  | zero =>
    intro page h1 hpk fuel hfuel
    cases fuel with
    | zero => omega
    | succ f =>
      have hpage : page = P := by omega
      have hle : page ≤ P := by omega
      simp only [drainPhotoPages, hresp page h1 hle]
      rw [if_pos (by rw [hpg page h1 hle]; omega)]
      simp [List.range']
  | succ k ih =>
    intro page h1 hpk fuel hfuel
    cases fuel with
    | zero => omega
    | succ f =>
      have hle : page ≤ P := by omega
      simp only [drainPhotoPages, hresp page h1 hle]
      rw [if_neg (by rw [hpg page h1 hle]; omega)]
      rw [ih (page + 1) (by omega) (by omega) f (by omega)]
      simp [List.range']

/-- C5: for a paginated listing whose pages all report a total page
count of P ≥ 1, the Resolver (`getAlbumPhotos`, and the identical loop
of `getAllPhotos`) issues exactly P page requests, stops exactly when
page P has been fetched regardless of per-page item counts, and returns
the concatenation of the items kept from pages 1..P, whose length is
the sum of the per-page item counts (and equals the sum of the raw
per-page listing sizes whenever every listed item has a non-empty
source URL). -/
theorem c5_pagination_drains_all_pages :
    ∀ (resp : Nat → Except String PageResp) (pg : Nat → PageResp) (P : Nat),
      1 ≤ P →
      (∀ p, 1 ≤ p → p ≤ P → resp p = .ok (pg p)) →
      (∀ p, 1 ≤ p → p ≤ P → (pg p).pages = P) →
      (getAlbumPhotos resp
          = (.ok (((List.range' 1 P).map fun q => parsePage (pg q)).flatten), P)
       ∧ getAllPhotos resp
          = (.ok (((List.range' 1 P).map fun q => parsePage (pg q)).flatten), P)
       ∧ (((List.range' 1 P).map fun q => parsePage (pg q)).flatten).length
           = ((List.range' 1 P).map fun q => (parsePage (pg q)).length).sum
       ∧ ((∀ p, 1 ≤ p → p ≤ P → ∀ d ∈ (pg p).photos, d.urlO ≠ "") →
           (((List.range' 1 P).map fun q => parsePage (pg q)).flatten).length
             = ((List.range' 1 P).map fun q => (pg q).photos.length).sum)) := by
  intro resp pg P hP hresp hpg
  have hfuel : pageFuel resp = P + 1 := by
    unfold pageFuel
    rw [hresp 1 le_rfl hP]
    simp [hpg 1 le_rfl hP]
  have hrun := drainPhotoPages_run resp pg P hresp hpg (P - 1) 1 le_rfl (by omega)
    (pageFuel resp) (by omega)
  have hkp : P - 1 + 1 = P := by omega
  rw [hkp] at hrun
  have hmain : getAlbumPhotos resp
      = (.ok (((List.range' 1 P).map fun q => parsePage (pg q)).flatten), P) := hrun
  have hlen : (((List.range' 1 P).map fun q => parsePage (pg q)).flatten).length
      = ((List.range' 1 P).map fun q => (parsePage (pg q)).length).sum := by
    rw [List.length_flatten, List.map_map]
    rfl
  refine ⟨hmain, hmain, hlen, ?_⟩
  intro hurl
  rw [hlen]
  congr 1
  refine List.map_congr_left ?_
  intro q hq
  have hbound := List.mem_range'_1.mp hq
  have h1q : 1 ≤ q := hbound.1
  have hqP : q ≤ P := by omega
  show (parsePage (pg q)).length = (pg q).photos.length
  unfold parsePage
  rw [List.filter_eq_self.mpr, List.length_map]
  intro x hx
  rcases List.mem_map.mp hx with ⟨d, hd, hparse⟩
  subst hparse
  have := hurl q h1q hqP d hd
  simpa [parsePhotoFromStruct] using this

/-- C5 witness: two pages each reporting 2 total pages — 2 requests,
concatenated items. -/
theorem c5_pagination_drains_all_pages_witness :
    (1 ≤ 2)
    ∧ (getAlbumPhotos (fun p =>
        .ok (if p = 1 then { pages := 2, photos := [{ id := "1", title := "t", urlO := "u/1.jpg" }] }
             else { pages := 2, photos := [{ id := "2", title := "s", urlO := "u/2.jpg" }] })))
      = (.ok (((List.range' 1 2).map fun q =>
            parsePage ((fun p : Nat =>
              if p = 1 then
                ({ pages := 2, photos := [{ id := "1", title := "t", urlO := "u/1.jpg" }] } : PageResp)
              else
                { pages := 2, photos := [{ id := "2", title := "s", urlO := "u/2.jpg" }] }) q)).flatten),
          2) := by
  refine ⟨by decide, ?_⟩
  exact (c5_pagination_drains_all_pages
    (fun p => .ok (if p = 1 then { pages := 2, photos := [{ id := "1", title := "t", urlO := "u/1.jpg" }] }
             else { pages := 2, photos := [{ id := "2", title := "s", urlO := "u/2.jpg" }] }))
    (fun p => if p = 1 then { pages := 2, photos := [{ id := "1", title := "t", urlO := "u/1.jpg" }] }
             else { pages := 2, photos := [{ id := "2", title := "s", urlO := "u/2.jpg" }] })
    2 (by decide)
    (fun p h1 h2 => rfl)
    (fun p h1 h2 => by interval_cases p <;> rfl)).1

/-! ## Detail-fetch retry lemmas -/

theorem rateLimited_not_ok (o : FetchOutcome) (h : rateLimited o = true) :
    fetchIsOk o = false := by
  cases o with
  | transportErr m => rfl
  | apiErr m => rfl
  | ok t d tags taken => simp [rateLimited] at h

theorem gpi_attempts_le (oracle : Nat → FetchOutcome) (pid : String) :
    ∀ fuel attempt, (getPhotoInfoLoop oracle pid fuel attempt).2.1 ≤ fuel := by
  intro fuel
  induction fuel with
  | zero => intro attempt; simp [getPhotoInfoLoop]
  | succ n ih =>
    intro attempt
    cases h : oracle attempt with
    | transportErr m =>
      simp only [getPhotoInfoLoop, h]
      split
      · have := ih (attempt + 1); simp; omega
      · simp
    | apiErr m =>
      simp only [getPhotoInfoLoop, h]
      split
      · have := ih (attempt + 1); simp; omega
      · simp
    | ok t d tags taken => simp [getPhotoInfoLoop, h]

theorem gpi_step_rl (oracle : Nat → FetchOutcome) (pid : String) (fuel attempt : Nat)
    (hrl : rateLimited (oracle attempt) = true) (h4 : attempt < 4) :
    getPhotoInfoLoop oracle pid (fuel + 1) attempt
      = ((getPhotoInfoLoop oracle pid fuel (attempt + 1)).1,
         (getPhotoInfoLoop oracle pid fuel (attempt + 1)).2.1 + 1,
         .fetchAttemptEv pid :: .sleepEv (2000 * 2 ^ attempt)
           :: (getPhotoInfoLoop oracle pid fuel (attempt + 1)).2.2) := by
  cases h : oracle attempt with
  | transportErr m =>
    rw [h] at hrl
    simp only [rateLimited] at hrl
    simp only [getPhotoInfoLoop, h]
    rw [if_pos ⟨hrl, h4⟩]
  | apiErr m =>
    rw [h] at hrl
    simp only [rateLimited] at hrl
    simp only [getPhotoInfoLoop, h]
    rw [if_pos ⟨hrl, h4⟩]
  | ok t d tags taken =>
    rw [h] at hrl
    simp [rateLimited] at hrl

theorem gpi_step_final (oracle : Nat → FetchOutcome) (pid : String) (fuel attempt : Nat)
    (hdisj : rateLimited (oracle attempt) = false ∨ 4 ≤ attempt) :
    (getPhotoInfoLoop oracle pid (fuel + 1) attempt).2.1 = 1
    ∧ (getPhotoInfoLoop oracle pid (fuel + 1) attempt).2.2 = [.fetchAttemptEv pid]
    ∧ exceptIsOk (getPhotoInfoLoop oracle pid (fuel + 1) attempt).1
        = fetchIsOk (oracle attempt) := by
  cases h : oracle attempt with
  | transportErr m =>
    rw [h] at hdisj
    simp only [rateLimited] at hdisj
    have hneg : ¬(isRateLimitTransport m = true ∧ attempt < 4) := by
      rcases hdisj with h1 | h1
      · intro hc; rw [h1] at hc; exact absurd hc.1 (by simp)
      · intro hc; omega
    simp only [getPhotoInfoLoop, h]
    rw [if_neg hneg]
    exact ⟨rfl, rfl, rfl⟩
  | apiErr m =>
    rw [h] at hdisj
    simp only [rateLimited] at hdisj
    have hneg : ¬(isRateLimitAPI m = true ∧ attempt < 4) := by
      rcases hdisj with h1 | h1
      · intro hc; rw [h1] at hc; exact absurd hc.1 (by simp)
      · intro hc; omega
    simp only [getPhotoInfoLoop, h]
    rw [if_neg hneg]
    exact ⟨rfl, rfl, rfl⟩
  | ok t d tags taken =>
    simp [getPhotoInfoLoop, h, exceptIsOk, fetchIsOk]

theorem gpi_run (oracle : Nat → FetchOutcome) (pid : String) :
    ∀ j, ∀ attempt, attempt + j ≤ 4 →
      (∀ k, k < j → rateLimited (oracle (attempt + k)) = true) →
      (rateLimited (oracle (attempt + j)) = false ∨ attempt + j = 4) →
      (getPhotoInfoLoop oracle pid (5 - attempt) attempt).2.1 = j + 1
      ∧ sleepsOf (getPhotoInfoLoop oracle pid (5 - attempt) attempt).2.2
          = (List.range j).map (fun i => 2000 * 2 ^ (attempt + i))
      ∧ exceptIsOk (getPhotoInfoLoop oracle pid (5 - attempt) attempt).1
          = fetchIsOk (oracle (attempt + j)) := by
  intro j
  induction j with
  | zero =>
    intro attempt hle hprior hstop
    have hfuel : 5 - attempt = (4 - attempt) + 1 := by omega
    rw [hfuel]
    have hdisj : rateLimited (oracle attempt) = false ∨ 4 ≤ attempt := by
      rcases hstop with h1 | h1
      · left; simpa using h1
      · right; omega
    have hf := gpi_step_final oracle pid (4 - attempt) attempt hdisj
    refine ⟨hf.1, ?_, ?_⟩
    · rw [hf.2.1]
      rfl
    · rw [hf.2.2]
      simp
  | succ j ih =>
    intro attempt hle hprior hstop
    have h4 : attempt < 4 := by omega
    have hrl : rateLimited (oracle attempt) = true := by
      have := hprior 0 (by omega)
      simpa using this
    have hfuel : 5 - attempt = (5 - (attempt + 1)) + 1 := by omega
    have hstep := gpi_step_rl oracle pid (5 - (attempt + 1)) attempt hrl h4
    have hihp : ∀ k, k < j → rateLimited (oracle (attempt + 1 + k)) = true := by
      intro k hk
      have := hprior (k + 1) (by omega)
      rwa [show attempt + (k + 1) = attempt + 1 + k by omega] at this
    have hihs : rateLimited (oracle (attempt + 1 + j)) = false ∨ attempt + 1 + j = 4 := by
      rwa [show attempt + (j + 1) = attempt + 1 + j by omega] at hstop
    have hih := ih (attempt + 1) (by omega) hihp hihs
    rw [hfuel, hstep]
    refine ⟨?_, ?_, ?_⟩
    · show (getPhotoInfoLoop oracle pid (5 - (attempt + 1)) (attempt + 1)).2.1 + 1 = j + 1 + 1
      rw [hih.1]
    · show sleepsOf (.fetchAttemptEv pid :: .sleepEv (2000 * 2 ^ attempt)
          :: (getPhotoInfoLoop oracle pid (5 - (attempt + 1)) (attempt + 1)).2.2)
        = (List.range (j + 1)).map (fun i => 2000 * 2 ^ (attempt + i))
      have hsl : sleepsOf (.fetchAttemptEv pid :: .sleepEv (2000 * 2 ^ attempt)
          :: (getPhotoInfoLoop oracle pid (5 - (attempt + 1)) (attempt + 1)).2.2)
          = 2000 * 2 ^ attempt
            :: sleepsOf (getPhotoInfoLoop oracle pid (5 - (attempt + 1)) (attempt + 1)).2.2 := by
        simp [sleepsOf]
      rw [hsl, hih.2.1, List.range_succ_eq_map, List.map_cons, List.map_map]
      refine List.cons_eq_cons.mpr ⟨?_, ?_⟩
      · simp
      · refine List.map_congr_left ?_
        intro a _
        show 2000 * 2 ^ (attempt + 1 + a) = 2000 * 2 ^ (attempt + Nat.succ a)
        rw [show attempt + 1 + a = attempt + Nat.succ a by omega]
    · show exceptIsOk (getPhotoInfoLoop oracle pid (5 - (attempt + 1)) (attempt + 1)).1
        = fetchIsOk (oracle (attempt + (j + 1)))
      rw [show attempt + (j + 1) = attempt + 1 + j by omega]
      exact hih.2.2

/-- C7: the detail fetch makes at most 5 attempts; when every attempt
is detected as rate-limited (transport-level 429 or API rate-limit
payload) it makes exactly 5 attempts with sleeps 2s, 4s, 8s, 16s
between them and ends in a terminal failure; and when the first j
attempts are rate-limited and attempt j is not, the loop stops at
attempt j+1 with the backoff prefix 2s·2^i — in particular a
non-rate-limit error is terminal without further retry, and the outcome
is the outcome of attempt j. -/
theorem c7_detail_fetch_backoff :
    ∀ (oracle : Nat → FetchOutcome) (pid : String),
      ((getPhotoInfo oracle pid).2.1 ≤ 5)
      ∧ ((∀ k, k < 5 → rateLimited (oracle k) = true) →
          (getPhotoInfo oracle pid).2.1 = 5
          ∧ sleepsOf (getPhotoInfo oracle pid).2.2 = [2000, 4000, 8000, 16000]
          ∧ exceptIsOk (getPhotoInfo oracle pid).1 = false)
      ∧ (∀ j, j < 5 → (∀ k, k < j → rateLimited (oracle k) = true) →
          rateLimited (oracle j) = false →
          (getPhotoInfo oracle pid).2.1 = j + 1
          ∧ sleepsOf (getPhotoInfo oracle pid).2.2
              = (List.range j).map (fun i => 2000 * 2 ^ i)
          ∧ exceptIsOk (getPhotoInfo oracle pid).1 = fetchIsOk (oracle j)) := by
  intro oracle pid
  refine ⟨gpi_attempts_le oracle pid 5 0, ?_, ?_⟩
  · intro h
    have hrun := gpi_run oracle pid 4 0 (by omega)
      (fun k hk => by rw [Nat.zero_add]; exact h k (by omega))
      (Or.inr (by omega))
    refine ⟨hrun.1, ?_, ?_⟩
    · exact hrun.2.1.trans (by decide)
    · refine hrun.2.2.trans ?_
      exact rateLimited_not_ok (oracle (0 + 4)) (by rw [Nat.zero_add]; exact h 4 (by omega))
  · intro j hj hprior hj0
    have hrun := gpi_run oracle pid j 0 (by omega)
      (fun k hk => by rw [Nat.zero_add]; exact hprior k hk)
      (Or.inl (by rw [Nat.zero_add]; exact hj0))
    refine ⟨hrun.1, ?_, ?_⟩
    · refine hrun.2.1.trans ?_
      refine List.map_congr_left ?_
      intro a _
      rw [Nat.zero_add]
    · refine hrun.2.2.trans ?_
      rw [Nat.zero_add]

/-- C7 witness: every attempt rate-limited — 5 attempts, backoff
2s, 4s, 8s, 16s. -/
theorem c7_detail_fetch_backoff_witness :
    (∀ k, k < 5 → rateLimited ((fun _ => FetchOutcome.transportErr "HTTP 429") k) = true)
    ∧ (getPhotoInfo (fun _ => FetchOutcome.transportErr "HTTP 429") "p").2.1 = 5
    ∧ sleepsOf (getPhotoInfo (fun _ => FetchOutcome.transportErr "HTTP 429") "p").2.2
        = [2000, 4000, 8000, 16000] := by
  have h : ∀ k, k < 5 → rateLimited ((fun _ => FetchOutcome.transportErr "HTTP 429") k) = true :=
    fun k _ => (by decide : rateLimited (FetchOutcome.transportErr "HTTP 429") = true)
  have happ := (c7_detail_fetch_backoff (fun _ => FetchOutcome.transportErr "HTTP 429") "p").2.1 h
  exact ⟨h, happ.1, happ.2.1⟩
